import Mathlib

/-!
Shallow embedding of the MetricMaster geometry and layer measurement
engine (`src/App.tsx`, `src/types.ts`, the map-canvas drawing manager and
the layer panel) used to check the specification's claims.

Modelling conventions:
* JavaScript numbers are modelled by `JSNum` (NaN, the two infinities, or
  a finite rational).
* The geodesic routines of the external `@turf/turf` library
  (`turf.area`, `turf.length`) are not part of this repository; they are
  modelled as function parameters `area`, `lenKm` of the operations that
  call them.  `turf` exceptions on rings with fewer than four positions
  and on lines with fewer than two positions are modelled by the guards
  that the source itself places around those calls (the `catch` branch
  leaves the measured value at 0).
* Random id generation (`generateId`) is modelled by explicit fresh-id
  parameters, and the `window.confirm` / `window.prompt` dialog outcomes
  by explicit parameters; the delete operations are modelled at the
  confirmed branch.
-/

namespace MetricMaster

/-- A JavaScript number: NaN, +Infinity, -Infinity, or a finite value
(modelled as a rational). -/
inductive JSNum where
  | nan
  | inf
  | ninf
  | fin (q : ℚ)
deriving DecidableEq

namespace JSNum

/-- JS `isNaN`. -/
def isNaN : JSNum → Bool
  | .nan => true
  | _ => false

/-- JS `Number.isFinite`. -/
def isFinite : JSNum → Bool
  | .fin _ => true
  | _ => false

/-- Multiplication of a JS number by a finite rational constant `c`
(models the `* 1000` unit conversion). -/
def scale (c : ℚ) : JSNum → JSNum
  | .nan => .nan
  | .inf => if 0 < c then .inf else if c < 0 then .ninf else .nan
  | .ninf => if 0 < c then .ninf else if c < 0 then .inf else .nan
  | .fin q => .fin (c * q)

end JSNum

/-- The ASCII whitespace characters recognised by JS `trim` and `\s`
(the inputs of interest contain no exotic Unicode whitespace). -/
def isJSWhitespace (c : Char) : Bool :=
  c = ' ' || c = '\t' || c = '\n' || c = '\r' || c = '\x0b' || c = '\x0c'

/-- ASCII decimal digit test. -/
def isDigit (c : Char) : Bool := '0' ≤ c && c ≤ '9'

/-- Numeric value of a decimal digit character. -/
def digitVal (c : Char) : ℕ := c.toNat - '0'.toNat

/-- Value of a string of decimal digits. -/
def digitsToNat (ds : List Char) : ℕ :=
  ds.foldl (fun acc c => 10 * acc + digitVal c) 0

/-- Optional sign prefix of a JS numeric literal: (isNegative, rest). -/
def parseSign : List Char → Bool × List Char
  | '-' :: cs => (true, cs)
  | '+' :: cs => (false, cs)
  | cs => (false, cs)

/-- Exponent part `e`/`E` [sign] digits of a JS numeric literal; when the
digits are missing the exponent candidate is not part of the longest
valid prefix and is not consumed. -/
def parseExpPart (cs : List Char) : ℤ × List Char :=
  match cs with
  | c :: rest =>
    if c = 'e' || c = 'E' then
      let s := parseSign rest
      let ds := s.2.takeWhile isDigit
      if ds = [] then (0, cs)
      else ((if s.1 then -(digitsToNat ds : ℤ) else (digitsToNat ds : ℤ)),
            s.2.dropWhile isDigit)
    else (0, cs)
  | [] => (0, [])

/-- Longest-prefix numeric value of JS `parseFloat`, after leading
whitespace removal; `none` models a NaN result. -/
def parseFloatAux (cs : List Char) : Option JSNum :=
  let s := parseSign cs
  if s.2.take 8 = "Infinity".toList then
    some (if s.1 then .ninf else .inf)
  else
    let ints := s.2.takeWhile isDigit
    let cs2 := s.2.dropWhile isDigit
    let withFrac : List Char × List Char :=
      match cs2 with
      | '.' :: rest => (rest.takeWhile isDigit, rest.dropWhile isDigit)
      | _ => ([], cs2)
    if ints = [] ∧ withFrac.1 = [] then none
    else
      let ex := (parseExpPart withFrac.2).1
      let mant : ℚ :=
        (digitsToNat ints : ℚ) + (digitsToNat withFrac.1 : ℚ) / (10 : ℚ) ^ withFrac.1.length
      let v : ℚ := mant * (10 : ℚ) ^ ex
      some (.fin (if s.1 then -v else v))

/-- JS `parseFloat`. -/
def parseFloat (str : String) : JSNum :=
  match parseFloatAux (str.toList.dropWhile isJSWhitespace) with
  | some v => v
  | none => .nan

/-- JS `String.prototype.trim` over the character list (ASCII). -/
def jsTrimList (cs : List Char) : List Char :=
  ((cs.dropWhile isJSWhitespace).reverse.dropWhile isJSWhitespace).reverse

/-- JS `String.prototype.trim`. -/
def jsTrim (s : String) : String := String.mk (jsTrimList s.toList)

/-- JS `String.prototype.toLowerCase` (ASCII). -/
def jsToLower (s : String) : String := String.mk (s.toList.map Char.toLower)

/-- JS `String.prototype.substring` for in-range ascending arguments. -/
def jsSubstringList (cs : List Char) (i j : ℕ) : List Char :=
  (cs.drop i).take (j - i)

/-- Truthiness of a possibly-absent JS string (`undefined`, `null` and
`""` are falsy). -/
def jsTruthy : Option String → Bool
  | none => false
  | some s => !(s = "")

/-- `v || d` for a possibly-absent JS string `v`. -/
def jsOrStr (v : Option String) (d : String) : String :=
  match v with
  | none => d
  | some s => if s = "" then d else s

/-- Fuelled scanner behind `tokens`; the fuel is an upper bound on the
number of characters still to be consumed, so `tokens` supplies the
input length. -/
def tokensAux : ℕ → List Char → List (List Char)
  | 0, _ => []
  | _, [] => []
  | fuel + 1, c :: rest =>
    if isJSWhitespace c then tokensAux fuel rest
    else (c :: rest.takeWhile (fun x => !isJSWhitespace x))
           :: tokensAux fuel (rest.dropWhile (fun x => !isJSWhitespace x))

/-- Maximal runs of non-whitespace characters (the behaviour of JS
`split(/\s+/)` on a non-empty string with no leading or trailing
whitespace). -/
def tokens (cs : List Char) : List (List Char) :=
  tokensAux cs.length cs

/-- JS `s.split(/\s+/)` as applied in the importer (always after
`trim()`): splitting the empty string yields one empty chunk, a
non-empty trimmed string yields its maximal non-whitespace runs. -/
def splitWsJS (s : String) : List String :=
  if s = "" then [""] else (tokens s.toList).map (fun t => String.mk t)

/-! ### Data model (`src/types.ts`) -/

/-- `ToolMode` from `types.ts`. -/
inductive ToolMode where
  | select
  | drawPolygon
  | drawLine
deriving DecidableEq

/-- A geographic point; the JS `number` fields are modelled by `JSNum`. -/
structure GeoPoint where
  lat : JSNum
  lng : JSNum
deriving DecidableEq

/-- The `'polygon' | 'polyline'` shape kind. -/
inductive ShapeType where
  | polygon
  | polyline
deriving DecidableEq

/-- The `'surface' | 'length' | 'mixed'` layer kind. -/
inductive LayerType where
  | surface
  | length
  | mixed
deriving DecidableEq

/-- The `'measurement' | 'kml'` layer category. -/
inductive LayerCategory where
  | measurement
  | kml
deriving DecidableEq

/-- `Shape` from `types.ts`. -/
structure Shape where
  id : String
  name : String
  type : ShapeType
  points : List GeoPoint
  layerId : String
  measuredValue : JSNum
deriving DecidableEq

/-- `Layer` from `types.ts`. -/
structure Layer where
  id : String
  name : String
  color : String
  type : LayerType
  category : LayerCategory
  isVisible : Bool
  opacity : JSNum
deriving DecidableEq

/-- The project-level React state of `App.tsx` that the engine operations
read and mutate. -/
structure AppState where
  layers : List Layer
  shapes : List Shape
  activeLayerId : Option String
  selectedShapeId : Option String
  toolMode : ToolMode
  mapCenter : Option GeoPoint
deriving DecidableEq

/-- The initial state of `App.tsx` (`useState` initialisers). -/
def initialState : AppState :=
  { layers := [{ id := "1", name := "Murs", color := "#ef4444", type := .surface,
                 category := .measurement, isVisible := true, opacity := .fin (1/2) }],
    shapes := [],
    activeLayerId := some "1",
    selectedShapeId := none,
    toolMode := .select,
    mapCenter := none }

/-! ### Layer-store operations (`src/App.tsx`) -/

/-- `handleAddLayer` (the fresh `generateId()` is the `newId` parameter;
the TS signature restricts the kind to `'surface' | 'length'`). -/
def handleAddLayer (st : AppState) (newId nm : String) (ltype : LayerType)
    (color : String) : AppState :=
  { st with
    layers := st.layers ++
      [{ id := newId, name := nm, type := ltype, category := .measurement,
         color := color, isVisible := true,
         opacity := if ltype = .surface then .fin (1/2) else .fin 1 }],
    activeLayerId := some newId,
    toolMode := if ltype = .surface then .drawPolygon else .drawLine,
    selectedShapeId := none }

/-- `handleDeleteLayer`, at the confirmed branch of the
`window.confirm` dialog. -/
def handleDeleteLayer (st : AppState) (id : String) : AppState :=
  { st with
    layers := st.layers.filter (fun l => l.id ≠ id),
    shapes := st.shapes.filter (fun s => s.layerId ≠ id),
    activeLayerId := if st.activeLayerId = some id then none else st.activeLayerId }

/-- `handleToggleVisibility`. -/
def handleToggleVisibility (st : AppState) (id : String) : AppState :=
  { st with
    layers := st.layers.map (fun l =>
      if l.id = id then { l with isVisible := !l.isVisible } else l) }

/-- `handleUpdateOpacity`: stores the given opacity value on the matching
layer as-is. -/
def handleUpdateOpacity (st : AppState) (id : String) (opacity : JSNum) : AppState :=
  { st with
    layers := st.layers.map (fun l =>
      if l.id = id then { l with opacity := opacity } else l) }

/-- `handleSetActiveLayer`. -/
def handleSetActiveLayer (st : AppState) (id : String) : AppState :=
  match st.layers.find? (fun l => l.id = id) with
  | some layer =>
      { st with activeLayerId := some id,
                toolMode := if layer.type = .surface then .drawPolygon else .drawLine,
                selectedShapeId := none }
  | none => { st with activeLayerId := some id }

/-- `handleAddShape`. -/
def handleAddShape (st : AppState) (s : Shape) : AppState :=
  { st with shapes := st.shapes ++ [s] }

/-- `handleDeleteShape`, at the confirmed branch of the
`window.confirm` dialog. -/
def handleDeleteShape (st : AppState) (id : String) : AppState :=
  { st with
    shapes := st.shapes.filter (fun s => s.id ≠ id),
    selectedShapeId := if st.selectedShapeId = some id then none
                       else st.selectedShapeId }

/-- `handleSelectShape`. -/
def handleSelectShape (st : AppState) (id : Option String) : AppState :=
  { st with selectedShapeId := id }

/-! ### Conversion (`handleConvertShape` in `src/App.tsx`) -/

/-- Outcome tag of a `handleConvertShape` call. -/
inductive ConvertResult where
  | ok
  | shapeNotFound
  | invalidTarget
  | cancelled
deriving DecidableEq

/-- `layers.find(l => l.id === activeLayerId)`. -/
def targetLayerOf (st : AppState) : Option Layer :=
  match st.activeLayerId with
  | none => none
  | some aid => st.layers.find? (fun l => l.id = aid)

/-- The measured value computed inside `handleConvertShape` for the
coerced kind: a polygon ring is closed by appending its first point and
measured only with at least 4 positions after closure; a polyline is
measured only with at least 2 positions; otherwise the value stays 0
(`turf` would throw and the `catch` keeps 0).  `area` and `lenKm` model
`turf.area` and `turf.length` (kilometers); the source converts
kilometers to meters with `* 1000`. -/
def convertedValue (area lenKm : List GeoPoint → JSNum) (newType : ShapeType)
    (pts : List GeoPoint) : JSNum :=
  match newType with
  | .polygon =>
      match pts with
      | [] => .fin 0
      | p :: _ => if pts.length + 1 ≥ 4 then area (pts ++ [p]) else .fin 0
  | .polyline =>
      if pts.length ≥ 2 then (lenKm pts).scale 1000 else .fin 0

/-- The replacement shape built by `handleConvertShape`. -/
def convertedShape (area lenKm : List GeoPoint → JSNum) (s : Shape) (tl : Layer)
    (newId : String) : Shape :=
  let newType : ShapeType :=
    if tl.type = .surface then .polygon
    else if tl.type = .length then .polyline
    else s.type
  { s with id := newId, layerId := tl.id, type := newType,
           measuredValue := convertedValue area lenKm newType s.points,
           name := if s.name = "Sans nom" then "Import " ++ tl.name else s.name }

/-- `handleConvertShape`: the target layer is the active layer; the
`window.confirm` outcome is the `confirmed` parameter and the fresh
`generateId()` is `newId`. -/
def handleConvertShape (area lenKm : List GeoPoint → JSNum) (st : AppState)
    (shapeId newId : String) (confirmed : Bool) : AppState × ConvertResult :=
  match st.shapes.find? (fun s => s.id = shapeId) with
  | none => (st, .shapeNotFound)
  | some shape =>
    match targetLayerOf st with
    | none => (st, .invalidTarget)
    | some tl =>
      if tl.category ≠ .measurement then (st, .invalidTarget)
      else if confirmed = false then (st, .cancelled)
      else
        let ns := convertedShape area lenKm shape tl newId
        ({ st with shapes := st.shapes.filter (fun s => s.id ≠ shapeId) ++ [ns],
                   selectedShapeId := some ns.id },
         .ok)

/-! ### Shape capture (`DrawingManager` and `handleShapeComplete` in the
map-canvas component) -/

/-- The drawing manager's capture state: the current tool mode and the
accumulated vertices. -/
structure CaptureState where
  mode : ToolMode
  points : List GeoPoint
deriving DecidableEq

/-- `handleTryFinish`: with enough points for the mode, emits the
accumulated point list and clears the accumulator; otherwise a silent
no-op. -/
def handleTryFinish (cs : CaptureState) : CaptureState × Option (List GeoPoint) :=
  if cs.mode = .drawPolygon ∧ cs.points.length ≥ 3 then
    ({ cs with points := [] }, some cs.points)
  else if cs.mode = .drawLine ∧ cs.points.length ≥ 2 then
    ({ cs with points := [] }, some cs.points)
  else (cs, none)

/-- The map `click` handler while drawing: appends the clicked point. -/
def addCapturePoint (cs : CaptureState) (p : GeoPoint) : CaptureState :=
  if cs.mode = .select then cs else { cs with points := cs.points ++ [p] }

/-- The raw measured value computed by `handleShapeComplete` before its
NaN check: for a surface layer the ring is closed with the first point
(`turf.polygon` throws inside the `try` on rings shorter than 4
positions, leaving 0); for a length layer `turf.length` in kilometers is
scaled to meters (`turf.lineString` throws on fewer than 2 positions,
leaving 0). -/
def captureRawValue (area lenKm : List GeoPoint → JSNum) (al : Layer)
    (pts : List GeoPoint) : JSNum :=
  if al.type = .surface then
    match pts with
    | [] => .fin 0
    | p :: _ => if pts.length + 1 ≥ 4 then area (pts ++ [p]) else .fin 0
  else
    if pts.length ≥ 2 then (lenKm pts).scale 1000 else .fin 0

/-- `handleShapeComplete`: computes the measured value, replaces a NaN
result by 0, prompts for a name (`promptResult`, where `none` is a
cancelled prompt and `""` falls back to the default name) and produces
the shape handed to `onAddShape`; `none` when no shape is added. -/
def handleShapeComplete (area lenKm : List GeoPoint → JSNum)
    (activeLayer : Option Layer) (newId : String) (pts : List GeoPoint)
    (promptResult : Option String) : Option Shape :=
  match activeLayer with
  | none => none
  | some al =>
    let raw := captureRawValue area lenKm al pts
    let mv := if raw.isNaN then .fin 0 else raw
    match promptResult with
    | none => none
    | some nm =>
      let defaultName := if al.type = .surface then "Surface" else "Longueur"
      some { id := newId,
             name := if nm = "" then defaultName else nm,
             type := if al.type = .surface then .polygon else .polyline,
             points := pts,
             layerId := al.id,
             measuredValue := mv }

/-! ### Document importer (`handleKmlImport` in `src/App.tsx`)

The DOM parsing of the KML text is modelled by a structured document
value: each `Style` element contributes its `id` attribute and the text
content of its `PolyStyle`/`LineStyle` color children; each `Placemark`
its name, its `Polygon` / `LineString` coordinate text (the outer
`Option` is element presence, the inner one the optional `coordinates`
child text) and its `styleUrl` text; folders hold their placemarks. -/

/-- A `Style` element. -/
structure KmlStyle where
  id : Option String
  polyColor : Option String
  lineColor : Option String

/-- A `Placemark` element. -/
structure KmlPlacemark where
  name : Option String
  polygonCoords : Option (Option String)
  lineStringCoords : Option (Option String)
  styleUrl : Option String

/-- A `Folder` element. -/
structure KmlFolder where
  name : Option String
  placemarks : List KmlPlacemark

/-- A parsed KML document; when `folders` is non-empty only folder
placemarks are processed, otherwise `topPlacemarks` holds every
placemark of the document. -/
structure KmlDoc where
  styles : List KmlStyle
  folders : List KmlFolder
  topPlacemarks : List KmlPlacemark

/-- `kmlColorToHex`: the neutral gray for an absent or falsy value, the
drop-alpha byte-order-reversed conversion for an 8-character value, the
byte-order reversal for a 6-character value, the neutral gray
otherwise. -/
def kmlColorToHex (kmlColor : Option String) : String :=
  if jsTruthy kmlColor = false then "#9ca3af"
  else
    let cs := (jsToLower (jsTrim (kmlColor.getD ""))).toList
    if cs.length = 8 then
      String.mk ('#' :: (jsSubstringList cs 6 8 ++ jsSubstringList cs 4 6 ++
                         jsSubstringList cs 2 4))
    else if cs.length = 6 then
      String.mk ('#' :: (jsSubstringList cs 4 6 ++ jsSubstringList cs 2 4 ++
                         jsSubstringList cs 0 2))
    else "#9ca3af"

/-- The style table build: for each `Style` with a truthy id, the poly
color if truthy, else the line color if truthy (later entries of the JS
object overwrite earlier ones; `styleLookup` reads the last write). -/
def buildStyleMap (styles : List KmlStyle) : List (String × String) :=
  styles.foldl (fun m st =>
    match st.id with
    | none => m
    | some id =>
      if id = "" then m
      else if jsTruthy st.polyColor then m ++ [("#" ++ id, kmlColorToHex st.polyColor)]
      else if jsTruthy st.lineColor then m ++ [("#" ++ id, kmlColorToHex st.lineColor)]
      else m) []

/-- JS object lookup on the style table: the last written binding wins. -/
def styleLookup (m : List (String × String)) (k : String) : Option String :=
  (m.reverse.find? (fun p => p.1 = k)).map (fun p => p.2)

/-- JS `pair.split(',')` over the character list. -/
def splitCommaAux : List Char → List Char → List (List Char)
  | acc, [] => [acc.reverse]
  | acc, c :: rest =>
    if c = ',' then acc.reverse :: splitCommaAux [] rest
    else splitCommaAux (c :: acc) rest

/-- JS `pair.split(',')`. -/
def splitComma (cs : List Char) : List (List Char) :=
  splitCommaAux [] cs

/-- One comma-separated coordinate pair of `parseCoords`: `lng,lat[,alt]`;
`none` when fewer than two comma-parts are present. -/
def parsePair (pair : String) : Option GeoPoint :=
  let parts := splitComma pair.toList
  if parts.length ≥ 2 then
    some { lat := parseFloat (String.mk (parts.getD 1 [])),
           lng := parseFloat (String.mk (parts.getD 0 [])) }
  else none

/-- `parseCoords`: trim, split on whitespace runs, parse each pair, keep
the pairs whose two coordinates are not NaN. -/
def parseCoords (coordStr : String) : List GeoPoint :=
  ((splitWsJS (jsTrim coordStr)).map parsePair).filterMap (fun p? =>
    match p? with
    | some p => if p.lat.isNaN = false ∧ p.lng.isNaN = false then some p else none
    | none => none)

/-- Kind and point list extracted from a placemark: a `Polygon` element
wins over a `LineString`; a falsy `coordinates` text leaves the points
empty; the kind is initialised to polygon. -/
def placemarkGeom (pm : KmlPlacemark) : ShapeType × List GeoPoint :=
  match pm.polygonCoords with
  | some co =>
      (.polygon, match co with
                 | some c => if c = "" then [] else parseCoords c
                 | none => [])
  | none =>
    match pm.lineStringCoords with
    | some co =>
        (.polyline, match co with
                    | some c => if c = "" then [] else parseCoords c
                    | none => [])
    | none => (.polygon, [])

/-- `processPlacemark` (the unused `defaultColor` parameter of the source
is kept): a shape with measured value 0, or `none` when no valid point
survives. -/
def processPlacemark (pmId : String) (pm : KmlPlacemark)
    (layerId defaultColor : String) : Option Shape :=
  let g := placemarkGeom pm
  if g.2.length > 0 then
    some { id := pmId, name := jsOrStr pm.name "Sans nom", type := g.1,
           points := g.2, layerId := layerId, measuredValue := .fin 0 }
  else none

/-- Processing of a placemark list: each placemark consumes one fresh id
(index `n` into the id supply) whether or not it yields a shape; returns
the collected shapes and the next id index. -/
def processPlacemarksAux (ids : ℕ → String) :
    ℕ → List KmlPlacemark → String → String → List Shape × ℕ
  | n, [], _, _ => ([], n)
  | n, pm :: rest, lid, col =>
    match processPlacemark (ids n) pm lid col with
    | some sh =>
        let r := processPlacemarksAux ids (n + 1) rest lid col
        (sh :: r.1, r.2)
    | none => processPlacemarksAux ids (n + 1) rest lid col

/-- The fixed 8-color palette of `App.tsx`. -/
def PRESET_COLORS : List String :=
  ["#ef4444", "#3b82f6", "#22c55e", "#eab308", "#a855f7", "#ec4899",
   "#f97316", "#06b6d4"]

/-- One folder of the import: a fresh layer id, the folder name or the
synthetic `Dossier N`, the palette color possibly overridden by the first
placemark's resolvable style reference, the imported layer record, and
its shapes. -/
def processFolder (ids : ℕ → String) (styleMap : List (String × String))
    (idx n : ℕ) (folder : KmlFolder) : Layer × List Shape × ℕ :=
  let layerId := ids n
  let folderName := jsOrStr folder.name ("Dossier " ++ toString (idx + 1))
  let baseColor := PRESET_COLORS.getD (idx % PRESET_COLORS.length) ""
  let layerColor :=
    match folder.placemarks with
    | [] => baseColor
    | pm :: _ =>
      match pm.styleUrl with
      | some su =>
          if su = "" then baseColor
          else
            match styleLookup styleMap su with
            | some c => c
            | none => baseColor
      | none => baseColor
  let layer : Layer :=
    { id := layerId, name := folderName, color := layerColor, type := .mixed,
      category := .kml, isVisible := true, opacity := .fin (3/5) }
  let r := processPlacemarksAux ids (n + 1) folder.placemarks layerId layerColor
  (layer, r.1, r.2)

/-- Folder-by-folder processing in document order. -/
def processFoldersAux (ids : ℕ → String) (styleMap : List (String × String)) :
    ℕ → ℕ → List KmlFolder → List Layer × List Shape × ℕ
  | _, n, [] => ([], [], n)
  | idx, n, f :: rest =>
    let r := processFolder ids styleMap idx n f
    let rs := processFoldersAux ids styleMap (idx + 1) r.2.2 rest
    (r.1 :: rs.1, r.2.1 ++ rs.2.1, rs.2.2)

/-- The layers and shapes produced by the import before the commit
decision: the folder branch when folders exist, otherwise one layer
named after the file for the top-level placemarks (nothing when there is
no placemark). -/
def processKmlDoc (ids : ℕ → String) (doc : KmlDoc) (fileName : String) :
    List Layer × List Shape :=
  let styleMap := buildStyleMap doc.styles
  if doc.folders.length > 0 then
    let r := processFoldersAux ids styleMap 0 0 doc.folders
    (r.1, r.2.1)
  else
    if doc.topPlacemarks.length > 0 then
      let layerId := ids 0
      let layer : Layer :=
        { id := layerId, name := "Import " ++ fileName, color := "#9ca3af",
          type := .mixed, category := .kml, isVisible := true,
          opacity := .fin (3/5) }
      let r := processPlacemarksAux ids 1 doc.topPlacemarks layerId "#9ca3af"
      ([layer], r.1)
    else ([], [])

/-- Outcome tag of `handleKmlImport`. -/
inductive ImportResult where
  | committed
  | emptyFailure
deriving DecidableEq

/-- `handleKmlImport` after the document has been read and parsed: with
at least one produced shape, the produced layers and shapes are appended
to the project and the map recentered on the first shape's first point;
otherwise the `Aucune forme compatible` alert is raised and nothing is
committed. -/
def handleKmlImport (ids : ℕ → String) (st : AppState) (doc : KmlDoc)
    (fileName : String) : AppState × ImportResult :=
  let r := processKmlDoc ids doc fileName
  if r.2.length > 0 then
    ({ st with
       layers := st.layers ++ r.1,
       shapes := st.shapes ++ r.2,
       mapCenter :=
         match r.2.head? with
         | some s0 =>
             match s0.points.head? with
             | some p => some p
             | none => st.mapCenter
         | none => st.mapCenter },
     .committed)
  else (st, .emptyFailure)

/-! ### Specification-side definitions

Definitions written from the specification's words, for comparison with
the code-side definitions above. -/

/-- The clamping the specification ascribes to `setOpacity`:
`min(1, max(0, v))` in JS arithmetic. -/
def clamp01 (v : JSNum) : JSNum :=
  match v with
  | .nan => .nan
  | .inf => .fin 1
  | .ninf => .fin 0
  | .fin q => .fin (min 1 (max 0 q))

/-- The specification's acceptance test for a coordinate pair: at least
two comma-parts, both parsing to finite numbers. -/
def pairYieldsTwoFinite (pair : String) : Bool :=
  decide ((splitComma pair.toList).length ≥ 2)
    && (parseFloat (String.mk ((splitComma pair.toList).getD 1 []))).isFinite
    && (parseFloat (String.mk ((splitComma pair.toList).getD 0 []))).isFinite

/-- The code's actual acceptance test for a coordinate pair: at least two
comma-parts, both parsing to non-NaN numbers (infinities pass). -/
def pairYieldsTwoNonNaN (pair : String) : Bool :=
  decide ((splitComma pair.toList).length ≥ 2)
    && !(parseFloat (String.mk ((splitComma pair.toList).getD 1 []))).isNaN
    && !(parseFloat (String.mk ((splitComma pair.toList).getD 0 []))).isNaN

/-- The point an accepted coordinate pair contributes. -/
def pairPoint (pair : String) : GeoPoint :=
  { lat := parseFloat (String.mk ((splitComma pair.toList).getD 1 [])),
    lng := parseFloat (String.mk ((splitComma pair.toList).getD 0 [])) }

/-- The hex-digit test used to state what a well-formed 8-hex-digit color
value is. -/
def isHexDigit (c : Char) : Bool :=
  ('0' ≤ c && c ≤ '9') || ('a' ≤ c && c ≤ 'f') || ('A' ≤ c && c ≤ 'F')

/-! ### Example fixtures -/

/-- The initial `Murs` measurement layer of the app. -/
def mursLayer : Layer :=
  { id := "1", name := "Murs", color := "#ef4444", type := .surface,
    category := .measurement, isVisible := true, opacity := .fin (1/2) }

/-- An imported (kml-category) layer. -/
def kmlLayer : Layer :=
  { id := "kl", name := "ImpL", color := "#9ca3af", type := .mixed,
    category := .kml, isVisible := true, opacity := .fin (3/5) }

/-- Three sample vertices. -/
def triPoints : List GeoPoint :=
  [{ lat := .fin 1, lng := .fin 2 }, { lat := .fin 3, lng := .fin 4 },
   { lat := .fin 5, lng := .fin 6 }]

/-- An imported shape owned by `kmlLayer`. -/
def kmlShape : Shape :=
  { id := "k1", name := "Sans nom", type := .polyline, points := triPoints,
    layerId := "kl", measuredValue := .fin 0 }

/-- A project holding the measurement layer, the imported layer and the
imported shape, with the measurement layer active and the imported shape
selected. -/
def exState : AppState :=
  { layers := [mursLayer, kmlLayer], shapes := [kmlShape],
    activeLayerId := some "1", selectedShapeId := some "k1",
    toolMode := .select, mapCenter := none }

/-- The same project with the imported (non-measurement) layer active. -/
def exStateKmlActive : AppState := { exState with activeLayerId := some "kl" }

/-- A deterministic id supply standing in for `generateId()`. -/
def exIds : ℕ → String := fun n => "id" ++ toString n

/-- A document with no style, folder or placemark. -/
def emptyDoc : KmlDoc := { styles := [], folders := [], topPlacemarks := [] }

/-- A placemark carrying a polygon ring of three valid coordinate
pairs. -/
def triPlacemark : KmlPlacemark :=
  { name := some "P1",
    polygonCoords := some (some "2.35,48.85,0 2.36,48.85,0 2.36,48.86,0"),
    lineStringCoords := none, styleUrl := none }

/-- A document with one folder containing `triPlacemark`. -/
def triDoc : KmlDoc :=
  { styles := [], folders := [{ name := some "F1", placemarks := [triPlacemark] }],
    topPlacemarks := [] }

/-! ### Claims -/

unseal Rat.add Rat.mul Rat.inv

/-- C8: while capturing, `tryFinish` with fewer than 3 accumulated points
in polygon mode (or fewer than 2 in polyline mode) is a no-op — the state
keeps the same point list and nothing is emitted; with at least the
required number of points it emits the accumulated point sequence and
clears the accumulator (the idle state). -/
theorem c8_tryFinish_thresholds (cs : CaptureState) :
    (cs.mode = .drawPolygon → cs.points.length < 3 → handleTryFinish cs = (cs, none))
    ∧ (cs.mode = .drawLine → cs.points.length < 2 → handleTryFinish cs = (cs, none))
    ∧ (cs.mode = .drawPolygon → 3 ≤ cs.points.length →
        handleTryFinish cs = ({ cs with points := [] }, some cs.points))
    ∧ (cs.mode = .drawLine → 2 ≤ cs.points.length →
        handleTryFinish cs = ({ cs with points := [] }, some cs.points)) := by
  refine ⟨?_, ?_, ?_, ?_⟩ <;> intro hm hn <;> unfold handleTryFinish
  · rw [if_neg (fun h => absurd h.2 (by omega)),
        if_neg (fun h => by rw [hm] at h; exact absurd h.1 (by decide))]
  · rw [if_neg (fun h => by rw [hm] at h; exact absurd h.1 (by decide)),
        if_neg (fun h => absurd h.2 (by omega))]
  · rw [if_pos ⟨hm, hn⟩]
  · rw [if_neg (fun h => by rw [hm] at h; exact absurd h.1 (by decide)),
        if_pos ⟨hm, hn⟩]

/-- C8 witness: with 2 points in polygon mode `tryFinish` is a no-op,
with 3 points it emits them. -/
theorem c8_witness :
    handleTryFinish { mode := .drawPolygon, points := triPoints.take 2 }
      = ({ mode := .drawPolygon, points := triPoints.take 2 }, none)
    ∧ handleTryFinish { mode := .drawPolygon, points := triPoints }
      = ({ mode := .drawPolygon, points := [] }, some triPoints) :=
  ⟨(c8_tryFinish_thresholds _).1 rfl (by decide),
   (c8_tryFinish_thresholds _).2.2.1 rfl (by decide)⟩

/-- C4 counterexample: a convert call whose target layer is invalid (the
kml-category layer is active) but whose `shapeId` is not in the shape set
returns silently with the shape-not-found outcome — the shape lookup
guard precedes the target-layer check — so not every bad-target call
fails with the invalid-target condition the claim asserts. -/
theorem c4_counterexample :
    targetLayerOf exStateKmlActive = some kmlLayer
    ∧ kmlLayer.category ≠ .measurement
    ∧ exStateKmlActive.shapes.find? (fun x => x.id = "ghost") = none
    ∧ handleConvertShape (fun _ => JSNum.fin 7) (fun _ => JSNum.fin 0)
        exStateKmlActive "ghost" "n2" true = (exStateKmlActive, .shapeNotFound)
    ∧ ConvertResult.shapeNotFound ≠ ConvertResult.invalidTarget :=
  ⟨by decide, by decide, by decide, by decide, by decide⟩

/-- C4 amended: when the target (active) layer is missing or is not a
measurement-category layer, `handleConvertShape` leaves the whole project
state unchanged in every case; the invalid-target condition (the guiding
alert) is signalled exactly when the shape being converted exists, while
a nonexistent `shapeId` makes the call return silently with the
shape-not-found outcome before the target check. -/
theorem c4_convert_invalid_target_no_mutation (area lenKm : List GeoPoint → JSNum)
    (st : AppState) (shapeId newId : String) (confirmed : Bool)
    (h : targetLayerOf st = none
         ∨ ∃ L, targetLayerOf st = some L ∧ L.category ≠ .measurement) :
    (handleConvertShape area lenKm st shapeId newId confirmed).1 = st
    ∧ (∀ s, st.shapes.find? (fun x => x.id = shapeId) = some s →
        (handleConvertShape area lenKm st shapeId newId confirmed).2 = .invalidTarget)
    ∧ (st.shapes.find? (fun x => x.id = shapeId) = none →
        handleConvertShape area lenKm st shapeId newId confirmed
          = (st, .shapeNotFound)) := by
  unfold handleConvertShape
  cases hf : st.shapes.find? (fun s => s.id = shapeId) with
  | none => simp
  | some shape =>
    rcases h with h | ⟨L, hL, hcat⟩
    · rw [h]; simp
    · rw [hL]; simp [hcat]

/-- C4 witness: converting the existing imported shape while the
kml-category layer is active mutates nothing and signals the
invalid-target condition. -/
theorem c4_witness :
    (handleConvertShape (fun _ => JSNum.fin 7) (fun _ => JSNum.fin 0)
        exStateKmlActive "k1" "n2" true).1 = exStateKmlActive
    ∧ (handleConvertShape (fun _ => JSNum.fin 7) (fun _ => JSNum.fin 0)
        exStateKmlActive "k1" "n2" true).2 = .invalidTarget := by
  have h := c4_convert_invalid_target_no_mutation (fun _ => JSNum.fin 7)
    (fun _ => JSNum.fin 0) exStateKmlActive "k1" "n2" true
    (Or.inr ⟨kmlLayer, by decide, by decide⟩)
  exact ⟨h.1, h.2.1 kmlShape (by decide)⟩

/-- C6 counterexample: `setOpacity` does not clamp — storing the value 2
on the initial layer leaves its opacity at 2, not at
`min(1, max(0, 2)) = 1` as the claim states. -/
theorem c6_counterexample :
    ((handleUpdateOpacity exState "1" (.fin 2)).layers.map Layer.opacity
      = [JSNum.fin 2, JSNum.fin (3/5)])
    ∧ clamp01 (JSNum.fin 2) = JSNum.fin 1
    ∧ JSNum.fin 2 ≠ JSNum.fin 1 :=
  ⟨by decide, by decide, by decide⟩

/-- C6 amended: `setOpacity(id, v)` stores `v` on the matching layer
exactly as given (no clamping), leaves every other field of that layer
and every other layer untouched, and has no other side effect on the
project state. -/
theorem c6_amended_opacity_stored_unclamped (st : AppState) (id : String) (v : JSNum) :
    (handleUpdateOpacity st id v).shapes = st.shapes
    ∧ (handleUpdateOpacity st id v).activeLayerId = st.activeLayerId
    ∧ (handleUpdateOpacity st id v).selectedShapeId = st.selectedShapeId
    ∧ (handleUpdateOpacity st id v).toolMode = st.toolMode
    ∧ (handleUpdateOpacity st id v).mapCenter = st.mapCenter
    ∧ List.Forall₂ (fun l' l =>
        l'.id = l.id ∧ l'.name = l.name ∧ l'.color = l.color ∧ l'.type = l.type
        ∧ l'.category = l.category ∧ l'.isVisible = l.isVisible
        ∧ l'.opacity = (if l.id = id then v else l.opacity))
      (handleUpdateOpacity st id v).layers st.layers := by
  refine ⟨rfl, rfl, rfl, rfl, rfl, ?_⟩
  show List.Forall₂ _ (st.layers.map _) st.layers
  induction st.layers with
  | nil => exact List.Forall₂.nil
  | cons l ls ih =>
    refine List.Forall₂.cons ?_ ih
    by_cases h : l.id = id <;> simp [h]

/-- C10 counterexample: the selection is not cleared *only* by
`deleteShape` or `setActiveLayer` — `addLayer` also clears it (while
deleting no shape). -/
theorem c10_counterexample :
    exState.selectedShapeId = some "k1"
    ∧ (handleAddLayer exState "L2" "Toit" .surface "#ffffff").selectedShapeId = none
    ∧ (handleAddLayer exState "L2" "Toit" .surface "#ffffff").shapes = exState.shapes :=
  ⟨by decide, by decide, by decide⟩

/-- C10 amended: `deleteLayer` never touches `selectedShapeId` (so when
the cascade deletes the selected shape the selection dangles on an id
with no surviving shape) and clears `activeLayerId` exactly when the
deleted layer was active; the selection is cleared by `deleteShape` of
the selected shape, by `setActiveLayer` onto an existing layer and also
by `addLayer` — not by `deleteLayer`. -/
theorem c10_amended_deleteLayer_keeps_selection (st : AppState) (lid : String) :
    (handleDeleteLayer st lid).selectedShapeId = st.selectedShapeId
    ∧ (st.activeLayerId = some lid → (handleDeleteLayer st lid).activeLayerId = none)
    ∧ (st.activeLayerId ≠ some lid →
        (handleDeleteLayer st lid).activeLayerId = st.activeLayerId)
    ∧ (∀ sid, st.selectedShapeId = some sid →
        (∀ sh ∈ st.shapes, sh.id = sid → sh.layerId = lid) →
        (handleDeleteLayer st lid).selectedShapeId = some sid
        ∧ ∀ sh ∈ (handleDeleteLayer st lid).shapes, sh.id ≠ sid)
    ∧ (∀ sid, st.selectedShapeId = some sid →
        (handleDeleteShape st sid).selectedShapeId = none)
    ∧ (∀ id2 L, st.layers.find? (fun l => l.id = id2) = some L →
        (handleSetActiveLayer st id2).selectedShapeId = none)
    ∧ (∀ nid nm t col, (handleAddLayer st nid nm t col).selectedShapeId = none) := by
  refine ⟨rfl, ?_, ?_, ?_, ?_, ?_, ?_⟩
  · intro h; simp [handleDeleteLayer, h]
  · intro h; simp [handleDeleteLayer, h]
  · intro sid hsel hown
    refine ⟨hsel, ?_⟩
    intro sh hsh hid
    simp only [handleDeleteLayer, List.mem_filter] at hsh
    exact absurd (hown sh hsh.1 hid) (by simpa using hsh.2)
  · intro sid hsel
    simp [handleDeleteShape, hsel]
  · intro id2 L hL
    simp [handleSetActiveLayer, hL]
  · intro nid nm t col
    rfl

/-- C10 witness: deleting the layer that owns the selected shape leaves
the selection pointing at an id with no surviving shape. -/
theorem c10_witness :
    (handleDeleteLayer exState "kl").selectedShapeId = some "k1"
    ∧ ∀ sh ∈ (handleDeleteLayer exState "kl").shapes, sh.id ≠ "k1" :=
  (c10_amended_deleteLayer_keeps_selection exState "kl").2.2.2.1 "k1" (by decide) (by decide)

/-- C2: under the conversion precondition (shape found, target layer
found and of measurement category, confirmation accepted), the convert
removes the original shape and appends exactly one new shape carrying the
supplied fresh id, the same point sequence, the target layer's id, the
kind forced by the target layer's kind (polygon for surface, polyline for
length — independent of the source kind, which is why a second conversion
always matches the last target layer), and the `Import <layer>` name
exactly when the original name was the `Sans nom` placeholder. -/
lemma convert_run (area lenKm : List GeoPoint → JSNum) (st : AppState)
    (shapeId newId : String) (s : Shape) (L : Layer)
    (hs : st.shapes.find? (fun x => x.id = shapeId) = some s)
    (hL : targetLayerOf st = some L)
    (hcat : L.category = .measurement) :
    handleConvertShape area lenKm st shapeId newId true
      = ({ st with
           shapes := st.shapes.filter (fun x => x.id ≠ shapeId)
             ++ [convertedShape area lenKm s L newId],
           selectedShapeId := some (convertedShape area lenKm s L newId).id },
         .ok) := by
  unfold handleConvertShape
  simp only [hs, hL]
  rw [if_neg (fun h => h hcat), if_neg (by decide)]

theorem c2_convert_moves_and_retypes (area lenKm : List GeoPoint → JSNum)
    (st : AppState) (shapeId newId : String) (s : Shape) (L : Layer)
    (hs : st.shapes.find? (fun x => x.id = shapeId) = some s)
    (hL : targetLayerOf st = some L)
    (hcat : L.category = .measurement)
    (hkind : L.type = .surface ∨ L.type = .length) :
    (handleConvertShape area lenKm st shapeId newId true).2 = .ok
    ∧ (handleConvertShape area lenKm st shapeId newId true).1.shapes
        = st.shapes.filter (fun x => x.id ≠ shapeId)
          ++ [{ id := newId,
                name := if s.name = "Sans nom" then "Import " ++ L.name else s.name,
                type := if L.type = .surface then .polygon else .polyline,
                points := s.points,
                layerId := L.id,
                measuredValue := convertedValue area lenKm
                  (if L.type = .surface then .polygon else .polyline) s.points }] := by
  rw [convert_run area lenKm st shapeId newId s L hs hL hcat]
  refine ⟨rfl, ?_⟩
  rcases hkind with h | h <;> simp [convertedShape, h]

/-- C2 witness: converting the imported polyline onto the surface
measurement layer. -/
theorem c2_witness :
    (handleConvertShape (fun _ => JSNum.fin 7) (fun _ => JSNum.fin 0)
        exState "k1" "n2" true).2 = .ok
    ∧ (handleConvertShape (fun _ => JSNum.fin 7) (fun _ => JSNum.fin 0)
        exState "k1" "n2" true).1.shapes
        = exState.shapes.filter (fun x => x.id ≠ "k1")
          ++ [{ id := "n2",
                name := if kmlShape.name = "Sans nom" then "Import " ++ mursLayer.name
                        else kmlShape.name,
                type := if mursLayer.type = .surface then .polygon else .polyline,
                points := kmlShape.points,
                layerId := mursLayer.id,
                measuredValue := convertedValue (fun _ => JSNum.fin 7) (fun _ => JSNum.fin 0)
                  (if mursLayer.type = .surface then .polygon else .polyline)
                  kmlShape.points }] :=
  c2_convert_moves_and_retypes (fun _ => JSNum.fin 7) (fun _ => JSNum.fin 0)
    exState "k1" "n2" kmlShape mursLayer (by decide) (by decide) (by decide)
    (Or.inl (by decide))

/-- C3: under the conversion precondition, the conversion always
completes, and the measured value stored on the (appended) new shape is
recomputed from the coerced kind: for a surface target the ring is closed
by appending the first point and the value stays 0 when fewer than 4
positions remain after closure (empty, or fewer than 3 open points),
otherwise it is the geodesic area of the closed ring; for a length target
the value stays 0 under 2 points and is otherwise the geodesic length in
meters (kilometers scaled by 1000). -/
theorem c3_convert_measured_value (area lenKm : List GeoPoint → JSNum)
    (st : AppState) (shapeId newId : String) (s : Shape) (L : Layer)
    (hs : st.shapes.find? (fun x => x.id = shapeId) = some s)
    (hL : targetLayerOf st = some L)
    (hcat : L.category = .measurement) :
    (handleConvertShape area lenKm st shapeId newId true).2 = .ok
    ∧ (handleConvertShape area lenKm st shapeId newId true).1.shapes.getLast?
        = some (convertedShape area lenKm s L newId)
    ∧ (L.type = .surface → s.points = [] →
        (convertedShape area lenKm s L newId).measuredValue = .fin 0)
    ∧ (L.type = .surface → ∀ p rest, s.points = p :: rest → s.points.length < 3 →
        (convertedShape area lenKm s L newId).measuredValue = .fin 0)
    ∧ (L.type = .surface → ∀ p rest, s.points = p :: rest → 3 ≤ s.points.length →
        (convertedShape area lenKm s L newId).measuredValue = area (s.points ++ [p]))
    ∧ (L.type = .length → s.points.length < 2 →
        (convertedShape area lenKm s L newId).measuredValue = .fin 0)
    ∧ (L.type = .length → 2 ≤ s.points.length →
        (convertedShape area lenKm s L newId).measuredValue
          = (lenKm s.points).scale 1000) := by
  have hrun := convert_run area lenKm st shapeId newId s L hs hL hcat
  refine ⟨by rw [hrun], by rw [hrun]; exact List.getLast?_concat _, ?_, ?_, ?_, ?_, ?_⟩
  · intro ht hpts
    have hmv : (convertedShape area lenKm s L newId).measuredValue
        = convertedValue area lenKm .polygon s.points := by
      simp [convertedShape, ht]
    rw [hmv, hpts]
    rfl
  · intro ht p rest hpts hlen
    have hmv : (convertedShape area lenKm s L newId).measuredValue
        = convertedValue area lenKm .polygon s.points := by
      simp [convertedShape, ht]
    rw [hpts] at hlen
    rw [hmv, hpts]
    simp only [convertedValue, List.length_cons] at hlen ⊢
    rw [if_neg (by omega)]
  · intro ht p rest hpts hlen
    have hmv : (convertedShape area lenKm s L newId).measuredValue
        = convertedValue area lenKm .polygon s.points := by
      simp [convertedShape, ht]
    rw [hpts] at hlen
    rw [hmv, hpts]
    simp only [convertedValue, List.length_cons] at hlen ⊢
    rw [if_pos (by omega)]
  · intro ht hlen
    have hmv : (convertedShape area lenKm s L newId).measuredValue
        = convertedValue area lenKm .polyline s.points := by
      simp [convertedShape, ht]
    rw [hmv]
    simp only [convertedValue]
    rw [if_neg (by omega)]
  · intro ht hlen
    have hmv : (convertedShape area lenKm s L newId).measuredValue
        = convertedValue area lenKm .polyline s.points := by
      simp [convertedShape, ht]
    rw [hmv]
    simp only [convertedValue]
    rw [if_pos hlen]

/-- C3 witness: converting the 3-point imported shape onto the surface
layer completes and stores the area of the closed 4-point ring. -/
theorem c3_witness :
    (handleConvertShape (fun l => JSNum.fin l.length) (fun _ => JSNum.fin 0)
        exState "k1" "n2" true).2 = .ok
    ∧ (convertedShape (fun l => JSNum.fin l.length) (fun _ => JSNum.fin 0)
        kmlShape mursLayer "n2").measuredValue
        = (fun l : List GeoPoint => JSNum.fin l.length) (kmlShape.points ++ [{ lat := .fin 1, lng := .fin 2 }]) := by
  have h := c3_convert_measured_value (fun l => JSNum.fin l.length) (fun _ => JSNum.fin 0)
    exState "k1" "n2" kmlShape mursLayer (by decide) (by decide) (by decide)
  exact ⟨h.1, h.2.2.2.2.1 (by decide) { lat := .fin 1, lng := .fin 2 }
    (triPoints.drop 1) (by decide) (by decide)⟩

/-- C5 counterexample: the claimed NaN/Infinity clamping does not happen
everywhere — finishing a capture whose area computation yields Infinity
stores Infinity, and converting a shape whose area computation yields NaN
stores NaN, so shapes with non-finite measured values exist. -/
theorem c5_counterexample :
    ((handleShapeComplete (fun _ => JSNum.inf) (fun _ => JSNum.inf)
        (some mursLayer) "n1" triPoints (some "S")).map Shape.measuredValue
      = some JSNum.inf)
    ∧ ((handleConvertShape (fun _ => JSNum.nan) (fun _ => JSNum.nan)
        exState "k1" "n2" true).1.shapes.map Shape.measuredValue = [JSNum.nan])
    ∧ JSNum.inf.isFinite = false
    ∧ JSNum.nan.isNaN = true :=
  ⟨by decide, by decide, by decide, by decide⟩

/-- C5 amended: finishing a capture replaces a NaN measured value by 0
but stores any other value — Infinity included — unchanged, so a finished
capture never stores NaN; converting a shape stores the recomputed value
entirely unclamped (NaN and Infinity included). -/
theorem c5_amended_partial_clamping (area lenKm : List GeoPoint → JSNum)
    (al : Layer) (newId : String) (pts : List GeoPoint) (nm : String) :
    (∀ s, handleShapeComplete area lenKm (some al) newId pts (some nm) = some s →
        s.measuredValue.isNaN = false)
    ∧ ((captureRawValue area lenKm al pts).isNaN = false →
        (handleShapeComplete area lenKm (some al) newId pts (some nm)).map
            Shape.measuredValue
          = some (captureRawValue area lenKm al pts))
    ∧ ((captureRawValue area lenKm al pts).isNaN = true →
        (handleShapeComplete area lenKm (some al) newId pts (some nm)).map
            Shape.measuredValue
          = some (JSNum.fin 0))
    ∧ (∀ (st : AppState) (shapeId : String) (s : Shape) (L : Layer),
        st.shapes.find? (fun x => x.id = shapeId) = some s →
        targetLayerOf st = some L → L.category = .measurement →
        (handleConvertShape area lenKm st shapeId newId true).1.shapes.getLast?.map
            Shape.measuredValue
          = some (convertedValue area lenKm
              (if L.type = .surface then .polygon
               else if L.type = .length then .polyline else s.type) s.points)) := by
  refine ⟨?_, ?_, ?_, ?_⟩
  · intro s hs2
    simp only [handleShapeComplete, Option.some.injEq] at hs2
    subst hs2
    show (if (captureRawValue area lenKm al pts).isNaN = true then JSNum.fin 0
          else captureRawValue area lenKm al pts).isNaN = false
    cases hraw : (captureRawValue area lenKm al pts).isNaN
    · rw [if_neg (by decide)]
      exact hraw
    · rw [if_pos rfl]
      rfl
  · intro hraw
    simp [handleShapeComplete, hraw]
  · intro hraw
    simp [handleShapeComplete, hraw]
  · intro st shapeId s L hs hL hcat
    rw [convert_run area lenKm st shapeId newId s L hs hL hcat]
    show ((st.shapes.filter _) ++ [convertedShape area lenKm s L newId]).getLast?.map
        Shape.measuredValue = _
    rw [List.getLast?_concat]
    rfl

/-- C5 witness: with an area function returning Infinity, the finished
capture stores exactly the raw (infinite) value. -/
theorem c5_witness :
    (handleShapeComplete (fun _ => JSNum.inf) (fun _ => JSNum.inf)
        (some mursLayer) "n1" triPoints (some "S")).map Shape.measuredValue
      = some (captureRawValue (fun _ => JSNum.inf) (fun _ => JSNum.inf)
          mursLayer triPoints) :=
  (c5_amended_partial_clamping (fun _ => JSNum.inf) (fun _ => JSNum.inf)
    mursLayer "n1" triPoints "S").2.1 (by decide)

/-- C1: the import is all-or-nothing — when processing produces zero
shapes the import fails with the empty/no-compatible-geometry condition
and the whole project state (layer list and shape set included) is
unchanged; when it produces at least one shape, all produced layers and
all produced shapes are appended together and the active layer and
selection are untouched. -/
theorem c1_import_all_or_nothing (ids : ℕ → String) (st : AppState)
    (doc : KmlDoc) (fileName : String) :
    ((processKmlDoc ids doc fileName).2 = [] →
      handleKmlImport ids st doc fileName = (st, .emptyFailure))
    ∧ ((processKmlDoc ids doc fileName).2 ≠ [] →
      (handleKmlImport ids st doc fileName).2 = .committed
      ∧ (handleKmlImport ids st doc fileName).1.layers
          = st.layers ++ (processKmlDoc ids doc fileName).1
      ∧ (handleKmlImport ids st doc fileName).1.shapes
          = st.shapes ++ (processKmlDoc ids doc fileName).2
      ∧ (handleKmlImport ids st doc fileName).1.activeLayerId = st.activeLayerId
      ∧ (handleKmlImport ids st doc fileName).1.selectedShapeId
          = st.selectedShapeId) := by
  constructor
  · intro h
    simp only [handleKmlImport]
    rw [h]
    simp
  · intro h
    simp only [handleKmlImport]
    rw [if_pos (List.length_pos.mpr h)]
    exact ⟨rfl, rfl, rfl, rfl, rfl⟩

/-- C1 witness: the empty document commits nothing and fails; the
one-folder one-placemark document commits its shapes. -/
theorem c1_witness :
    handleKmlImport exIds exState emptyDoc "f.kml" = (exState, .emptyFailure)
    ∧ (handleKmlImport exIds exState triDoc "f.kml").2 = .committed
    ∧ (handleKmlImport exIds exState triDoc "f.kml").1.shapes
        = exState.shapes ++ (processKmlDoc exIds triDoc "f.kml").2 :=
  ⟨(c1_import_all_or_nothing exIds exState emptyDoc "f.kml").1 (by decide),
   ((c1_import_all_or_nothing exIds exState triDoc "f.kml").2 (by decide)).1,
   ((c1_import_all_or_nothing exIds exState triDoc "f.kml").2 (by decide)).2.2.1⟩

/-- A non-empty character list never builds the empty string. -/
lemma stringMkConsNeEmpty (c : Char) (cs : List Char) :
    String.mk (c :: cs) ≠ "" := by
  intro h
  have h2 : c :: cs = ([] : List Char) := congrArg String.data h
  cases h2

/-- A rejected pair (fewer than two comma-parts) also fails the
non-NaN acceptance test. -/
lemma parsePair_none {t : String} (h : parsePair t = none) :
    pairYieldsTwoNonNaN t = false := by
  unfold parsePair at h
  unfold pairYieldsTwoNonNaN
  by_cases hlen : (splitComma t.toList).length ≥ 2
  · rw [if_pos hlen] at h; cases h
  · rw [decide_eq_false hlen]
    simp

/-- A parsed pair is the pair's point, and its acceptance equals the
non-NaN test on its two coordinates. -/
lemma parsePair_some {t : String} {p : GeoPoint} (h : parsePair t = some p) :
    p = pairPoint t
    ∧ pairYieldsTwoNonNaN t = (!p.lat.isNaN && !p.lng.isNaN) := by
  unfold parsePair at h
  by_cases hlen : (splitComma t.toList).length ≥ 2
  · rw [if_pos hlen] at h
    injection h with h
    subst h
    refine ⟨rfl, ?_⟩
    unfold pairYieldsTwoNonNaN
    rw [decide_eq_true hlen, Bool.true_and]
  · rw [if_neg hlen] at h; cases h

/-- C7 counterexample: the pair `Infinity,0` does not yield two finite
numbers (its longitude parses to Infinity), yet `parseCoords` keeps it —
the filter only drops NaN coordinates, so pairs are not dropped exactly
on the claim's finiteness condition. -/
theorem c7_counterexample :
    parseCoords "Infinity,0" = [{ lat := JSNum.fin 0, lng := JSNum.inf }]
    ∧ pairYieldsTwoFinite "Infinity,0" = false
    ∧ JSNum.inf.isFinite = false :=
  ⟨by decide, by decide, by decide⟩

/-- C7 amended: `parseCoords` splits the trimmed string on whitespace and
keeps exactly those pairs that yield two non-NaN numbers (a pair whose
coordinate parses to an infinity is kept); a placemark is dropped exactly
when its point list came out empty; and no per-pair or per-placemark
failure aborts the processing of the remaining placemarks. -/
theorem c7_amended_tolerant_parsing :
    (∀ s : String, parseCoords s
        = ((splitWsJS (jsTrim s)).filter pairYieldsTwoNonNaN).map pairPoint)
    ∧ (∀ (pmId : String) (pm : KmlPlacemark) (lid col : String),
        processPlacemark pmId pm lid col = none ↔ (placemarkGeom pm).2 = [])
    ∧ (∀ (ids : ℕ → String) (n : ℕ) (pms1 pms2 : List KmlPlacemark)
        (lid col : String),
        (processPlacemarksAux ids n (pms1 ++ pms2) lid col).1
          = (processPlacemarksAux ids n pms1 lid col).1
            ++ (processPlacemarksAux ids (n + pms1.length) pms2 lid col).1) := by
  refine ⟨?_, ?_, ?_⟩
  · intro s
    show ((splitWsJS (jsTrim s)).map parsePair).filterMap _
        = ((splitWsJS (jsTrim s)).filter pairYieldsTwoNonNaN).map pairPoint
    generalize splitWsJS (jsTrim s) = toks
    induction toks with
    | nil => rfl
    | cons t ts ih =>
      simp only [List.map_cons, List.filterMap_cons, List.filter_cons]
      cases hp : parsePair t with
      | none =>
        rw [parsePair_none hp]
        simpa using ih
      | some p =>
        obtain ⟨hpp, hkeep⟩ := parsePair_some hp
        subst hpp
        rw [hkeep]
        cases h1 : (pairPoint t).lat.isNaN <;> cases h2 : (pairPoint t).lng.isNaN <;>
          simp [h1, h2, ih]
  · intro pmId pm lid col
    unfold processPlacemark
    by_cases h : (placemarkGeom pm).2.length > 0
    · rw [if_pos h]
      simp [List.ne_nil_of_length_pos h]
    · rw [if_neg h]
      have h0 : (placemarkGeom pm).2 = [] :=
        List.length_eq_zero.mp (Nat.eq_zero_of_not_pos h)
      simp [h0]
  · intro ids n pms1 pms2 lid col
    induction pms1 generalizing n with
    | nil => simp [processPlacemarksAux]
    | cons pm rest ih =>
      simp only [List.cons_append, processPlacemarksAux]
      have harith : n + (pm :: rest).length = (n + 1) + rest.length := by
        simp [List.length_cons]; omega
      rw [harith]
      cases hpm : processPlacemark (ids n) pm lid col <;>
        simp [hpm, ih]

/-- C7 witness: a coordinate string with one malformed pair keeps exactly
the valid pairs, and a placemark of two parse-valid points survives while
one with none is dropped. -/
theorem c7_witness :
    parseCoords "1,abc 2.35,48.85"
      = ((splitWsJS (jsTrim "1,abc 2.35,48.85")).filter pairYieldsTwoNonNaN).map
          pairPoint
    ∧ (processPlacemark "p" triPlacemark "l" "c" = none
        ↔ (placemarkGeom triPlacemark).2 = []) :=
  ⟨c7_amended_tolerant_parsing.1 "1,abc 2.35,48.85",
   c7_amended_tolerant_parsing.2.1 "p" triPlacemark "l" "c"⟩

/-- C9 counterexample: an 8-character value that is not made of hex
digits is not replaced by the neutral gray default — it is converted
verbatim, so malformed values do not all map to `#9ca3af`. -/
theorem c9_counterexample :
    kmlColorToHex (some "zzzzzzzz") = "#zzzzzz"
    ∧ ("zzzzzzzz".toList.all isHexDigit) = false
    ∧ "#zzzzzz" ≠ "#9ca3af" :=
  ⟨by decide, by decide, by decide⟩

/-- C9 amended: the conversion is driven by the trimmed lowercased
length alone, with no hex-digit validation: an absent or empty value and
any length other than 8 or 6 yield the neutral gray `#9ca3af`; an
8-character value drops its first two characters (the alpha byte) and
reverses the remaining byte order; a 6-character value reverses its byte
order. -/
theorem c9_amended_color_conversion :
    kmlColorToHex none = "#9ca3af"
    ∧ kmlColorToHex (some "") = "#9ca3af"
    ∧ (∀ c1 c2 c3 c4 c5 c6 c7 c8 : Char,
        isJSWhitespace c1 = false → isJSWhitespace c8 = false →
        kmlColorToHex (some (String.mk [c1, c2, c3, c4, c5, c6, c7, c8]))
          = String.mk ['#', c7.toLower, c8.toLower, c5.toLower, c6.toLower,
                       c3.toLower, c4.toLower])
    ∧ (∀ c1 c2 c3 c4 c5 c6 : Char,
        isJSWhitespace c1 = false → isJSWhitespace c6 = false →
        kmlColorToHex (some (String.mk [c1, c2, c3, c4, c5, c6]))
          = String.mk ['#', c5.toLower, c6.toLower, c3.toLower, c4.toLower,
                       c1.toLower, c2.toLower]) := by
  refine ⟨by decide, by decide, ?_, ?_⟩
  · intro c1 c2 c3 c4 c5 c6 c7 c8 h1 h8
    have hne := stringMkConsNeEmpty c1 [c2, c3, c4, c5, c6, c7, c8]
    simp [kmlColorToHex, jsTruthy, hne, jsTrim, jsTrimList, jsToLower,
          jsSubstringList, List.dropWhile_cons, h1, h8]
  · intro c1 c2 c3 c4 c5 c6 h1 h6
    have hne := stringMkConsNeEmpty c1 [c2, c3, c4, c5, c6]
    simp [kmlColorToHex, jsTruthy, hne, jsTrim, jsTrimList, jsToLower,
          jsSubstringList, List.dropWhile_cons, h1, h6]

/-- C9 witness: an alpha-BGR value converts to the RGB reordering. -/
theorem c9_witness :
    kmlColorToHex (some (String.mk ['7', 'f', 'f', 'f', '0', '0', 'a', 'b']))
      = String.mk ['#', 'a'.toLower, 'b'.toLower, '0'.toLower, '0'.toLower,
                   'f'.toLower, 'f'.toLower] :=
  c9_amended_color_conversion.2.2.1 '7' 'f' 'f' 'f' '0' '0' 'a' 'b'
    (by decide) (by decide)

end MetricMaster
